import Mathlib

/-!
Shallow embedding of the Earthquake ELT pipeline
(`dags/earthquake_elt_dag.py`): the column-name normalizer, the
SQL transform (`TRANSFORM_SQL`), and the orchestrated stage chain
extract → load → validate → transform, with theorems checking the
natural-language specification against this embedding.

Conventions:
* SQL `NULL` is `Option.none`; raw-store text columns are `Option String`.
* A raised database error (Postgres exception aborting the statement) is
  `Except.error`; a successful statement is `Except.ok`.
* A `NUMERIC(p,s)` value is an exact decimal, modelled as an integer
  mantissa at a decimal scale (which is how Postgres stores `numeric`);
  `CAST` rounds half away from zero to scale `s` and raises
  "numeric field overflow" when more than `p` mantissa digits would be
  needed, as Postgres does.  `PgNumeric.toRat` is the denotation used in
  theorem statements.
-/

deriving instance DecidableEq for Except

/-! ### Character and string helpers -/

/-- Postgres `TRIM(x)`: strip space characters from both ends. -/
def trimSpaces (cs : List Char) : List Char :=
  ((cs.dropWhile (· == ' ')).reverse.dropWhile (· == ' ')).reverse

/-- Numeric value of a digit string (most significant first). -/
def natOfDigits (ds : List Char) : Nat :=
  ds.foldl (fun a c => 10 * a + (c.toNat - 48)) 0

/-- Does `hay` begin with `needle`? -/
def leadsWith : List Char → List Char → Bool
  | [], _ => true
  | _ :: _, [] => false
  | a :: as, b :: bs => a == b && leadsWith as bs

/-- Does `hay` contain `needle` as a contiguous substring? -/
def hasInfix : List Char → List Char → Bool
  | [], needle => needle.isEmpty
  | hay@(_ :: t), needle => leadsWith needle hay || hasInfix t needle

/-- `hay ILIKE '%needle%'`: case-insensitive containment (ASCII fold,
the needles used by the transform are all ASCII). -/
def ilikeContains (hay : String) (needle : String) : Bool :=
  hasInfix (hay.data.map Char.toUpper) (needle.data.map Char.toUpper)

/-! ### Exact decimal numbers (`NUMERIC(p,s)`) -/

def pow10 (n : Nat) : Nat := 10 ^ n

/-- An exact decimal value `mant / 10^scale`, the model of a Postgres
`numeric` value. -/
structure PgNumeric where
  mant : ℤ
  scale : Nat
deriving DecidableEq

/-- Denotation of a `PgNumeric` as a rational, for theorem statements. -/
def PgNumeric.toRat (a : PgNumeric) : ℚ :=
  (a.mant : ℚ) / ((pow10 a.scale : ℕ) : ℚ)

/-- Strict comparison of exact decimals (cross-multiplied, exact). -/
def PgNumeric.blt (a b : PgNumeric) : Bool :=
  decide (a.mant * ((pow10 b.scale : ℕ) : ℤ) < b.mant * ((pow10 a.scale : ℕ) : ℤ))

/-- Non-strict comparison of exact decimals. -/
def PgNumeric.ble (a b : PgNumeric) : Bool :=
  decide (a.mant * ((pow10 b.scale : ℕ) : ℤ) ≤ b.mant * ((pow10 a.scale : ℕ) : ℤ))

/-- Round an exact decimal to `s` fractional digits, halves away from
zero (Postgres `numeric` rounding). -/
def pgRoundToScale (s : Nat) (a : PgNumeric) : PgNumeric :=
  if a.scale ≤ s then ⟨a.mant * ((pow10 (s - a.scale) : ℕ) : ℤ), s⟩
  else
    let d := pow10 (a.scale - s)
    let q := ((a.mant.natAbs + d / 2) / d : ℕ)
    ⟨if 0 ≤ a.mant then (q : ℤ) else -(q : ℤ), s⟩

/-- `CAST(a AS NUMERIC(precision, scale))`: round to `scale` fractional
digits; raise `numeric field overflow` when the result needs more than
`precision` mantissa digits. -/
def pgNumericCast (precision scale : Nat) (a : PgNumeric) : Except String PgNumeric :=
  let r := pgRoundToScale scale a
  if r.mant.natAbs < pow10 precision then .ok r
  else .error "numeric field overflow"

/-! ### Numeric coercion (`TRANSFORM_SQL`, `parsed_data` CTE)

The four numeric columns are guarded by a regex and cast:
`CASE WHEN TRIM(col) ~ pattern THEN CAST(TRIM(col) AS NUMERIC(p,s)) ELSE NULL END`
with pattern `^[0-9]+\.?[0-9]*$` for `magnitud` and `profundidad` and
`^-?[0-9]+\.?[0-9]*$` for `latitud` and `longitud`. -/

/-- Does `cs` match `[0-9]+\.?[0-9]*` (anchored)? -/
def decShape (cs : List Char) : Bool :=
  let p := cs.span (·.isDigit)
  !p.1.isEmpty &&
    (match p.2 with
     | [] => true
     | '.' :: fs => fs.all (·.isDigit)
     | _ => false)

/-- Does `cs` match the transform's numeric pattern, anchored, with the
leading `-?` admitted only when `allowNeg` is set? -/
def pgRegexNum (allowNeg : Bool) (cs : List Char) : Bool :=
  match cs with
  | '-' :: rest => allowNeg && decShape rest
  | _ => decShape cs

/-- Exact value of an unsigned decimal literal (assumed `decShape`). -/
def decDigitsVal (cs : List Char) : PgNumeric :=
  let p := cs.span (·.isDigit)
  let fs := p.2.tail
  ⟨((natOfDigits p.1 * pow10 fs.length + natOfDigits fs : ℕ) : ℤ), fs.length⟩

/-- Exact value of an optionally negated decimal literal. -/
def decValSigned (cs : List Char) : PgNumeric :=
  match cs with
  | '-' :: rest => let u := decDigitsVal rest; ⟨-u.mant, u.scale⟩
  | _ => decDigitsVal cs

/-- One guarded numeric column of the `parsed_data` CTE.  A SQL `NULL`
input propagates to `NULL` (`NULL ~ pattern` is `NULL`, so the `CASE`
falls through to `ELSE NULL`). -/
def coerceField (allowNeg : Bool) (precision scale : Nat) (v : Option String) :
    Except String (Option PgNumeric) :=
  match v with
  | none => .ok none
  | some s =>
    let t := trimSpaces s.data
    if pgRegexNum allowNeg t then (pgNumericCast precision scale (decValSigned t)).map some
    else .ok none

/-- `magnitud` → `magnitude NUMERIC(3,1)`, unsigned pattern. -/
def coerceMagnitude (v : Option String) : Except String (Option PgNumeric) :=
  coerceField false 3 1 v

/-- `latitud` → `latitude NUMERIC(8,5)`, signed pattern. -/
def coerceLatitude (v : Option String) : Except String (Option PgNumeric) :=
  coerceField true 8 5 v

/-- `longitud` → `longitude NUMERIC(8,5)`, signed pattern. -/
def coerceLongitude (v : Option String) : Except String (Option PgNumeric) :=
  coerceField true 8 5 v

/-- `profundidad` → `depth_km NUMERIC(6,2)`, unsigned pattern. -/
def coerceDepthKm (v : Option String) : Except String (Option PgNumeric) :=
  coerceField false 6 2 v

/-! ### Date and timestamp parsing

`TO_DATE(fecha_utc, 'DD/MM/YYYY')` and
`TO_TIMESTAMP(fecha_utc || ' ' || hora_utc, 'DD/MM/YYYY HH24:MI:SS')`.
These are NOT regex-guarded: an unparseable non-NULL input raises an
error that aborts the whole statement.  A NULL input yields NULL. -/

structure PgDate where
  year : Nat
  month : Nat
  day : Nat
deriving DecidableEq

def isLeapYear (y : Nat) : Bool :=
  (y % 4 == 0 && y % 100 != 0) || (y % 400 == 0)

def daysInMonth (y m : Nat) : Nat :=
  if m == 2 then (if isLeapYear y then 29 else 28)
  else if m == 4 || m == 6 || m == 9 || m == 11 then 30
  else 31

/-- `TO_DATE(cs, 'DD/MM/YYYY')`: three slash-separated digit groups,
field values range-checked; anything else raises. -/
def toDate (cs : List Char) : Except String PgDate :=
  let p1 := cs.span (·.isDigit)
  match p1.2 with
  | '/' :: r1 =>
    let p2 := r1.span (·.isDigit)
    match p2.2 with
    | '/' :: r2 =>
      let p3 := r2.span (·.isDigit)
      if p1.1.isEmpty || p2.1.isEmpty || p3.1.isEmpty || !p3.2.isEmpty then
        .error "invalid value for DD/MM/YYYY"
      else
        let d := natOfDigits p1.1
        let m := natOfDigits p2.1
        let y := natOfDigits p3.1
        if 1 ≤ y && 1 ≤ m && m ≤ 12 && 1 ≤ d && d ≤ daysInMonth y m then
          .ok ⟨y, m, d⟩
        else .error "date/time field value out of range"
    | _ => .error "invalid value for DD/MM/YYYY"
  | _ => .error "invalid value for DD/MM/YYYY"

structure PgTimestamp where
  date : PgDate
  hour : Nat
  minute : Nat
  second : Nat
deriving DecidableEq

/-- `TO_TIMESTAMP(cs, 'DD/MM/YYYY HH24:MI:SS')`. -/
def toTimestamp (cs : List Char) : Except String PgTimestamp :=
  let q := cs.span (fun c => !(c == ' '))
  match q.2 with
  | ' ' :: rest =>
    match toDate q.1 with
    | .error e => .error e
    | .ok d =>
      let t1 := rest.span (·.isDigit)
      match t1.2 with
      | ':' :: r1 =>
        let t2 := r1.span (·.isDigit)
        match t2.2 with
        | ':' :: r2 =>
          let t3 := r2.span (·.isDigit)
          if t1.1.isEmpty || t2.1.isEmpty || t3.1.isEmpty || !t3.2.isEmpty then
            .error "invalid value for HH24:MI:SS"
          else
            let hh := natOfDigits t1.1
            let mi := natOfDigits t2.1
            let ss := natOfDigits t3.1
            if hh ≤ 23 && mi ≤ 59 && ss ≤ 59 then .ok ⟨d, hh, mi, ss⟩
            else .error "date/time field value out of range"
        | _ => .error "invalid value for HH24:MI:SS"
      | _ => .error "invalid value for HH24:MI:SS"
  | _ => .error "invalid value for timestamp"

/-- Day-of-week index, 0 = Sunday (Sakamoto's method). -/
def dowIndex (d : PgDate) : Nat :=
  let t := [0, 3, 2, 5, 0, 3, 5, 1, 4, 6, 2, 4]
  let y := if d.month < 3 then d.year - 1 else d.year
  (y + y / 4 - y / 100 + y / 400 + t.getD (d.month - 1) 0 + d.day) % 7

/-- `TO_CHAR(date, 'Day')`: English day name blank-padded to 9 chars. -/
def dayName : Nat → String
  | 0 => "Sunday   "
  | 1 => "Monday   "
  | 2 => "Tuesday  "
  | 3 => "Wednesday"
  | 4 => "Thursday "
  | 5 => "Friday   "
  | _ => "Saturday "

/-! ### SQL three-valued logic -/

/-- `a >= b` with a possibly-NULL left operand. -/
def sqlGe (a : Option PgNumeric) (b : PgNumeric) : Option Bool :=
  a.map (fun v => b.ble v)

/-- `a < b` with a possibly-NULL left operand. -/
def sqlLt (a : Option PgNumeric) (b : PgNumeric) : Option Bool :=
  a.map (fun v => v.blt b)

/-- SQL `OR` on three-valued booleans. -/
def sqlOr : Option Bool → Option Bool → Option Bool
  | some true, _ => some true
  | _, some true => some true
  | some false, some false => some false
  | _, _ => none

/-! ### Feature engineering (`TRANSFORM_SQL` outer SELECT) -/

/-- The SQL literal `3.0` (scale 1), etc. -/
def numLit (mant : ℤ) (scale : Nat) : PgNumeric := ⟨mant, scale⟩

/-- Magnitude categorization `CASE`; a NULL magnitude falls through every
`WHEN` to `ELSE 'Unknown'`. -/
def magnitudeCategory (m : Option PgNumeric) : String :=
  match m with
  | none => "Unknown"
  | some v =>
    if v.blt (numLit 30 1) then "Minor"
    else if (numLit 30 1).ble v && v.blt (numLit 40 1) then "Light"
    else if (numLit 40 1).ble v && v.blt (numLit 50 1) then "Moderate"
    else if (numLit 50 1).ble v && v.blt (numLit 60 1) then "Strong"
    else if (numLit 60 1).ble v && v.blt (numLit 70 1) then "Major"
    else if (numLit 70 1).ble v then "Great"
    else "Unknown"

/-- Depth categorization `CASE`; a NULL depth yields `'Unknown'`. -/
def depthCategory (d : Option PgNumeric) : String :=
  match d with
  | none => "Unknown"
  | some v =>
    if v.blt (numLit 70 0) then "Shallow"
    else if (numLit 70 0).ble v && v.blt (numLit 300 0) then "Intermediate"
    else if (numLit 300 0).ble v then "Deep"
    else "Unknown"

/-- Region extraction `CASE`: ordered first-match `ILIKE` containment. -/
def regionOf (loc : Option String) : String :=
  match loc with
  | none => "Other"
  | some l =>
    if ilikeContains l "MICH" then "Michoacán"
    else if ilikeContains l "OAXACA" || ilikeContains l "OAX" then "Oaxaca"
    else if ilikeContains l "GUERRERO" || ilikeContains l "GRO" then "Guerrero"
    else if ilikeContains l "CHIAPAS" || ilikeContains l "CHIS" then "Chiapas"
    else if ilikeContains l "CDMX" || ilikeContains l "CIUDAD DE MEXICO" then "CDMX"
    else if ilikeContains l "PUEBLA" || ilikeContains l "PUE" then "Puebla"
    else if ilikeContains l "VERACRUZ" || ilikeContains l "VER" then "Veracruz"
    else "Other"

/-- `(magnitude >= 5.0 OR depth_km < 50)` under SQL three-valued logic. -/
def isSignificantExpr (m d : Option PgNumeric) : Option Bool :=
  sqlOr (sqlGe m (numLit 50 1)) (sqlLt d (numLit 50 0))

/-! ### Raw and analytics rows -/

/-- One row of the source CSV / snapshot, all values textual (missing
values are NULL once loaded into the text-typed raw table). -/
structure RawInput where
  fecha_utc : Option String
  hora_utc : Option String
  magnitud : Option String
  latitud : Option String
  longitud : Option String
  profundidad : Option String
  referencia_localizacion : Option String
  estatus : Option String
deriving DecidableEq

/-- One row of `raw_earthquakes`: the textual source row plus the
metadata columns stamped by the Loader. -/
structure RawRow extends RawInput where
  batch_id : String
  loaded_at : Nat
deriving DecidableEq

/-- One row of `analytics_earthquakes`. -/
structure AnalyticsRow where
  earthquake_date : Option PgDate
  earthquake_datetime : Option PgTimestamp
  magnitude : Option PgNumeric
  latitude : Option PgNumeric
  longitude : Option PgNumeric
  depth_km : Option PgNumeric
  location_reference : Option String
  status : Option String
  year : Option Nat
  month : Option Nat
  day_of_week : Option String
  hour_of_day : Option Nat
  magnitude_category : String
  depth_category : String
  region : String
  is_significant : Option Bool
  batch_id : String
deriving DecidableEq

/-! ### The transform (`TRANSFORM_SQL`)

`INSERT INTO analytics_earthquakes SELECT ... FROM parsed_data
WHERE magnitude IS NOT NULL AND latitude IS NOT NULL AND longitude IS NOT NULL`.

The filter refers only to the three guarded numeric expressions, so those
are evaluated for every raw row of the batch; the remaining projection
expressions (`TO_DATE`, `TO_TIMESTAMP`, depth, features) are evaluated for
the rows that pass the filter.  Any raised error aborts the whole
statement: nothing is inserted. -/

/-- `TO_DATE(fecha_utc, 'DD/MM/YYYY')` on a possibly-NULL column. -/
def dateOf (r : RawRow) : Except String (Option PgDate) :=
  match r.fecha_utc with
  | none => .ok none
  | some f => (toDate f.data).map some

/-- `TO_TIMESTAMP(fecha_utc || ' ' || hora_utc, ...)`; the concatenation
is NULL (and so is the result) when either column is NULL. -/
def datetimeOf (r : RawRow) : Except String (Option PgTimestamp) :=
  match r.fecha_utc, r.hora_utc with
  | some f, some h => (toTimestamp (f.data ++ ' ' :: h.data)).map some
  | _, _ => .ok none

/-- `TRIM(referencia_localizacion)`. -/
def locationRef (r : RawRow) : Option String :=
  r.referencia_localizacion.map (fun s => String.mk (trimSpaces s.data))

/-- The projected analytics row for a gate-passing raw row. -/
def mkAnalyticsRow (r : RawRow) (m la lo : PgNumeric) (dep : Option PgNumeric)
    (d : Option PgDate) (t : Option PgTimestamp) : AnalyticsRow :=
  { earthquake_date := d
    earthquake_datetime := t
    magnitude := some m
    latitude := some la
    longitude := some lo
    depth_km := dep
    location_reference := locationRef r
    status := r.estatus.map (fun s => String.mk ((trimSpaces s.data).map Char.toLower))
    year := d.map (·.year)
    month := d.map (·.month)
    day_of_week := d.map (fun dd => dayName (dowIndex dd))
    hour_of_day := t.map (·.hour)
    magnitude_category := magnitudeCategory (some m)
    depth_category := depthCategory dep
    region := regionOf (locationRef r)
    is_significant := isSignificantExpr (some m) dep
    batch_id := r.batch_id }

/-- Evaluate the three gate columns (`magnitude`, `latitude`,
`longitude`): the result is the triple of values when all three coerced,
`none` when the `WHERE` filter drops the row, and an error when a
regex-passing value overflows its `NUMERIC` type. -/
def gateVals (r : RawRow) : Except String (Option (PgNumeric × PgNumeric × PgNumeric)) :=
  match coerceMagnitude r.magnitud, coerceLatitude r.latitud, coerceLongitude r.longitud with
  | .ok (some m), .ok (some la), .ok (some lo) => .ok (some (m, la, lo))
  | .ok _, .ok _, .ok _ => .ok none
  | .error e, _, _ => .error e
  | _, .error e, _ => .error e
  | _, _, .error e => .error e

/-- Projection expressions for a gate-passing row. -/
def enrich (r : RawRow) (m la lo : PgNumeric) : Except String AnalyticsRow :=
  match coerceDepthKm r.profundidad, dateOf r, datetimeOf r with
  | .ok dep, .ok d, .ok t => .ok (mkAnalyticsRow r m la lo dep d t)
  | .error e, _, _ => .error e
  | _, .error e, _ => .error e
  | _, _, .error e => .error e

/-- Process one raw row of the batch: `ok (some row)` inserts a row,
`ok none` is a row dropped by the `WHERE` filter, `error` aborts the
statement. -/
def transformRow (r : RawRow) : Except String (Option AnalyticsRow) :=
  match gateVals r with
  | .error e => .error e
  | .ok none => .ok none
  | .ok (some (m, la, lo)) => (enrich r m la lo).map some

/-- Process a list of raw rows; the first raised error aborts everything. -/
def transformRows : List RawRow → Except String (List AnalyticsRow)
  | [] => .ok []
  | r :: rest =>
    match transformRow r, transformRows rest with
    | .ok o, .ok tl => .ok (match o with | some a => a :: tl | none => tl)
    | .error e, _ => .error e
    | _, .error e => .error e

/-- The rows the transform statement inserts for `batch`
(`WHERE batch_id = '...'` in the `parsed_data` CTE). -/
def transformBatch (raw : List RawRow) (batch : String) : Except String (List AnalyticsRow) :=
  transformRows (raw.filter (fun r => r.batch_id == batch))

/-- One execution of `TRANSFORM_SQL` against the current analytics table:
a plain `INSERT ... SELECT` appending the batch's transformed rows.  On
error the statement is rolled back and the table is unchanged. -/
def runTransform (analytics : List AnalyticsRow) (raw : List RawRow) (batch : String) :
    Except String (List AnalyticsRow) :=
  match transformBatch raw batch with
  | .ok rows => .ok (analytics ++ rows)
  | .error e => .error e

/-! ### Schema normalizer (`normalize_column_name`)

The Python function NFD-decomposes, drops combining marks, strips,
lower-cases, replaces space characters with underscores, and keeps only
alphanumerics and underscores.  Unicode is modelled for the repertoire
the source data uses: ASCII plus the precomposed Latin letters below
(each with a singleton canonical decomposition, on which per-character
NFD agrees with string NFD). -/

/-- Canonical (NFD) decomposition for the modelled repertoire; any other
character decomposes to itself. -/
def nfd (c : Char) : List Char :=
  match c with
  | 'á' => ['a', '́'] | 'à' => ['a', '̀'] | 'â' => ['a', '̂']
  | 'ã' => ['a', '̃'] | 'ä' => ['a', '̈']
  | 'é' => ['e', '́'] | 'è' => ['e', '̀'] | 'ê' => ['e', '̂']
  | 'ë' => ['e', '̈']
  | 'í' => ['i', '́'] | 'ì' => ['i', '̀'] | 'î' => ['i', '̂']
  | 'ï' => ['i', '̈']
  | 'ó' => ['o', '́'] | 'ò' => ['o', '̀'] | 'ô' => ['o', '̂']
  | 'õ' => ['o', '̃'] | 'ö' => ['o', '̈']
  | 'ú' => ['u', '́'] | 'ù' => ['u', '̀'] | 'û' => ['u', '̂']
  | 'ü' => ['u', '̈']
  | 'ñ' => ['n', '̃'] | 'ç' => ['c', '̧'] | 'ý' => ['y', '́']
  | 'Á' => ['A', '́'] | 'À' => ['A', '̀'] | 'Â' => ['A', '̂']
  | 'Ã' => ['A', '̃'] | 'Ä' => ['A', '̈']
  | 'É' => ['E', '́'] | 'È' => ['E', '̀'] | 'Ê' => ['E', '̂']
  | 'Ë' => ['E', '̈']
  | 'Í' => ['I', '́'] | 'Ì' => ['I', '̀'] | 'Î' => ['I', '̂']
  | 'Ï' => ['I', '̈']
  | 'Ó' => ['O', '́'] | 'Ò' => ['O', '̀'] | 'Ô' => ['O', '̂']
  | 'Õ' => ['O', '̃'] | 'Ö' => ['O', '̈']
  | 'Ú' => ['U', '́'] | 'Ù' => ['U', '̀'] | 'Û' => ['U', '̂']
  | 'Ü' => ['U', '̈']
  | 'Ñ' => ['N', '̃'] | 'Ç' => ['C', '̧'] | 'Ý' => ['Y', '́']
  | _ => [c]

/-- Unicode category Mn (combining marks) within the modelled repertoire:
the combining diacritical marks block. -/
def combiningMark (c : Char) : Bool :=
  0x300 ≤ c.toNat && c.toNat ≤ 0x36F

/-- Python `str.isspace` over the ASCII whitespace characters. -/
def pyIsSpace (c : Char) : Bool :=
  c == ' ' || c == '\t' || c == '\n' || c == '\r' || c == '\x0b' || c == '\x0c'

/-- Python `str.strip()`. -/
def pyStrip (cs : List Char) : List Char :=
  ((cs.dropWhile pyIsSpace).reverse.dropWhile pyIsSpace).reverse

/-- The modelled character repertoire: ASCII, plus the precomposed Latin
letters with their NFD table entry above. -/
def modeledChars : List Char :=
  (List.range 128).map Char.ofNat ++
    ['á', 'à', 'â', 'ã', 'ä', 'é', 'è', 'ê', 'ë', 'í', 'ì', 'î', 'ï',
     'ó', 'ò', 'ô', 'õ', 'ö', 'ú', 'ù', 'û', 'ü', 'ñ', 'ç', 'ý',
     'Á', 'À', 'Â', 'Ã', 'Ä', 'É', 'È', 'Ê', 'Ë', 'Í', 'Ì', 'Î', 'Ï',
     'Ó', 'Ò', 'Ô', 'Õ', 'Ö', 'Ú', 'Ù', 'Û', 'Ü', 'Ñ', 'Ç', 'Ý']

/-- Membership in the modelled repertoire (on which the embedding of the
Python Unicode functions is faithful). -/
def modeledChar (c : Char) : Bool :=
  modeledChars.contains c

/-- The character set the spec promises for normalizer output: lowercase
ASCII alphanumerics and underscore. -/
def charsetOK (x : Char) : Bool :=
  ('a' ≤ x && x ≤ 'z') || ('0' ≤ x && x ≤ '9') || x == '_'

/-- The per-character tail of `normalize_column_name` applied to one
post-decomposition character `e`: lower-case, space→underscore; the
result, when the final filter keeps it, is a lowercase ASCII
alphanumeric or an underscore. -/
def charStepOK (e : Char) : Bool :=
  let l := Char.toLower e
  let c := if l == ' ' then '_' else l
  !(c.isAlphanum || c == '_') || charsetOK c

/-- `normalize_column_name` from the DAG: NFD-decompose and drop
combining marks, `strip().lower().replace(' ', '_')`, then keep only
alphanumerics and underscores. -/
def normalize_column_name (s : String) : String :=
  let decomposed := (s.data.flatMap nfd).filter (fun c => !combiningMark c)
  let lowered := ((pyStrip decomposed).map Char.toLower).map
    (fun c => if c == ' ' then '_' else c)
  String.mk (lowered.filter (fun c => c.isAlphanum || c == '_'))

/-- Modelled from the spec: §4.1's contract for the Schema Normalizer,
which (unlike the code, which replaces only the space character) asks for
"trimming and replacing interior whitespace with underscores".  Used only
to compare the spec's wording with `normalize_column_name`. -/
def specNormalizeColumnName (s : String) : String :=
  let decomposed := (s.data.flatMap nfd).filter (fun c => !combiningMark c)
  let lowered := ((pyStrip decomposed).map Char.toLower).map
    (fun c => if pyIsSpace c then '_' else c)
  String.mk (lowered.filter (fun c => c.isAlphanum || c == '_'))

/-! ### The orchestrated pipeline

`extract_task >> load_task >> validate_task >> transform_group >> export_task`
with metadata passed through XCom.  A failing task halts the chain:
no downstream task runs.  The stages after the transform (aggregate,
export) read only the analytics store and are not needed by any claim.

The Extractor's pandas round-trip is modelled at row granularity: column
labels have already been normalized and the loader's
`referencia_de_localizacion → referencia_localizacion` rename is the
identity at this granularity. -/

/-- An XCom value (the DAG pushes strings and row counts). -/
inductive XVal where
  | s : String → XVal
  | n : Nat → XVal
deriving DecidableEq

/-- The XCom store: `((task_id, key), value)`, most recent first. -/
abbrev XComStore := List ((String × String) × XVal)

def xpush (x : XComStore) (task key : String) (v : XVal) : XComStore :=
  ((task, key), v) :: x

def xpull (x : XComStore) (key task : String) : Option XVal :=
  (x.find? (fun e => e.1.1 == task && e.1.2 == key)).map (·.2)

/-- The artifact store for snapshot files: path ↦ rows. -/
abbrev SnapshotStore := List (String × List RawInput)

/-- `df.to_parquet(path)`: write, silently replacing any existing file. -/
def fsWrite (fs : SnapshotStore) (path : String) (content : List RawInput) : SnapshotStore :=
  (path, content) :: fs.filter (fun e => !(e.1 == path))

def fsRead (fs : SnapshotStore) (path : String) : Option (List RawInput) :=
  (fs.find? (fun e => e.1 == path)).map (·.2)

def RAW_DATA_PATH : String := "/opt/airflow/data/raw"

/-- `f"{RAW_DATA_PATH}/earthquakes_raw_{batch_id}.parquet"`. -/
def rawFilePath (batch : String) : String :=
  RAW_DATA_PATH ++ "/earthquakes_raw_" ++ batch ++ ".parquet"

/-- The environment of one DAG run: the run timestamp (`ts_nodash`), the
wall clock, the source CSV (present or not), and the initial stores. -/
structure PipeEnv where
  ts_nodash : String
  now : Nat
  csvExists : Bool
  csv : List RawInput
  fs0 : SnapshotStore
  raw0 : List RawRow
  analytics0 : List AnalyticsRow
deriving DecidableEq

/-- Mutable pipeline state threaded through the tasks. -/
structure PipeState where
  fs : SnapshotStore
  rawStore : List RawRow
  analytics : List AnalyticsRow
  xcom : XComStore
deriving DecidableEq

/-- `extract_earthquake_data`: fail when the CSV is missing; otherwise
write the batch snapshot (unconditionally — `to_parquet` overwrites any
prior snapshot at the same path) and push batch metadata to XCom. -/
def extract_earthquake_data (env : PipeEnv) (st : PipeState) : Except String PipeState :=
  if !env.csvExists then .error "CSV file not found"
  else
    let batch := env.ts_nodash
    let raw_file := rawFilePath batch
    let x1 := xpush st.xcom "extract_data" "batch_id" (.s batch)
    let x2 := xpush x1 "extract_data" "raw_file" (.s raw_file)
    let x3 := xpush x2 "extract_data" "record_count" (.n env.csv.length)
    .ok { st with fs := fsWrite st.fs raw_file env.csv, xcom := x3 }

/-- Stamp the Loader's metadata columns onto a snapshot row. -/
def stampRow (batch : String) (now : Nat) (r : RawInput) : RawRow :=
  { toRawInput := r, batch_id := batch, loaded_at := now }

/-- `load_raw_data`: read the snapshot named by XCom and append its rows
to `raw_earthquakes`, stamped with `batch_id` and `loaded_at`. -/
def load_raw_data (env : PipeEnv) (st : PipeState) : Except String PipeState :=
  match xpull st.xcom "batch_id" "extract_data", xpull st.xcom "raw_file" "extract_data" with
  | some (.s batch), some (.s raw_file) =>
    match fsRead st.fs raw_file with
    | none => .error "parquet file not found"
    | some rows =>
      let newRows := rows.map (stampRow batch env.now)
      let x := xpush st.xcom "load_raw_data" "loaded_records" (.n newRows.length)
      .ok { st with rawStore := st.rawStore ++ newRows, xcom := x }
  | _, _ => .error "missing XCom metadata"

/-- `validate_raw_data`: count the raw rows tagged with the batch and
compare with the extraction's record count; raise on mismatch. -/
def validate_raw_data (_env : PipeEnv) (st : PipeState) : Except String PipeState :=
  match xpull st.xcom "batch_id" "extract_data", xpull st.xcom "record_count" "extract_data" with
  | some (.s batch), some (.n expected) =>
    let loaded := (st.rawStore.filter (fun r => r.batch_id == batch)).length
    if loaded == expected then .ok st
    else .error ("Validation failed: Expected " ++ toString expected ++ ", got " ++ toString loaded)
  | _, _ => .error "missing XCom metadata"

/-- `transform_to_analytics`: run `TRANSFORM_SQL` with the batch id
pulled from XCom by the templated query. -/
def transform_to_analytics (_env : PipeEnv) (st : PipeState) : Except String PipeState :=
  match xpull st.xcom "batch_id" "extract_data" with
  | some (.s batch) =>
    match runTransform st.analytics st.rawStore batch with
    | .ok analytics => .ok { st with analytics := analytics }
    | .error e => .error e
  | _ => .error "missing XCom metadata"

/-- Run the dependency chain
`extract_data >> load_raw_data >> validate_raw_data >> transform_to_analytics`,
recording which tasks completed; a failing task stops the chain. -/
def runPipeline (env : PipeEnv) : List String × Except String PipeState :=
  let st0 : PipeState := ⟨env.fs0, env.raw0, env.analytics0, []⟩
  match extract_earthquake_data env st0 with
  | .error e => ([], .error e)
  | .ok s1 =>
    match load_raw_data env s1 with
    | .error e => (["extract_data"], .error e)
    | .ok s2 =>
      match validate_raw_data env s2 with
      | .error e => (["extract_data", "load_raw_data"], .error e)
      | .ok s3 =>
        match transform_to_analytics env s3 with
        | .error e => (["extract_data", "load_raw_data", "validate_raw_data"], .error e)
        | .ok s4 =>
          (["extract_data", "load_raw_data", "validate_raw_data", "transform_to_analytics"], .ok s4)

/-! ### Helper predicates and concrete examples used by the theorems -/

/-- Did an expression evaluate without raising? -/
def exOk {ε α : Type} : Except ε α → Bool
  | .ok _ => true
  | .error _ => false

/-- Both date expressions of a row evaluate without raising. -/
def datesOk (r : RawRow) : Bool :=
  exOk (dateOf r) && exOk (datetimeOf r)

/-- All four guarded numeric expressions of a row evaluate without
raising (each is either NULL, a non-matching text, or an in-range
number). -/
def numericsSafe (r : RawRow) : Bool :=
  exOk (coerceMagnitude r.magnitud) && exOk (coerceLatitude r.latitud) &&
    exOk (coerceLongitude r.longitud) && exOk (coerceDepthKm r.profundidad)

/-- Did a guarded numeric column coerce to an actual number? -/
def coercedSome : Except String (Option PgNumeric) → Bool
  | .ok (some _) => true
  | _ => false

/-- A raw row whose three gate columns coerce and whose date columns are
NULL. -/
def c1row : RawRow :=
  { fecha_utc := none, hora_utc := none, magnitud := some "5",
    latitud := some "18", longitud := some "-99", profundidad := none,
    referencia_localizacion := none, estatus := none,
    batch_id := "B", loaded_at := 0 }

/-- The raw store for the C1 example: one qualifying row of batch B. -/
def c1raw : List RawRow := [c1row]

/-- The analytics row the transform derives from `c1row`. -/
def c1out : AnalyticsRow :=
  { earthquake_date := none, earthquake_datetime := none,
    magnitude := some ⟨50, 1⟩, latitude := some ⟨1800000, 5⟩,
    longitude := some ⟨-9900000, 5⟩, depth_km := none,
    location_reference := none, status := none,
    year := none, month := none, day_of_week := none, hour_of_day := none,
    magnitude_category := "Strong", depth_category := "Unknown",
    region := "Other", is_significant := some true, batch_id := "B" }

/-- A row whose numerics all coerce but whose date text is unparseable. -/
def c2BadDate : RawRow :=
  { fecha_utc := some "banana", hora_utc := some "13:14:40",
    magnitud := some "4.0", latitud := some "18.0", longitud := some "-98.0",
    profundidad := some "57", referencia_localizacion := none,
    estatus := none, batch_id := "B", loaded_at := 0 }

/-- A fully well-formed row of the same batch. -/
def c2Good : RawRow :=
  { fecha_utc := some "19/09/2017", hora_utc := some "13:14:40",
    magnitud := some "7.1", latitud := some "18.40", longitud := some "-98.72",
    profundidad := some "57", referencia_localizacion := some "1 km al este de AXOCHIAPAN, MOR",
    estatus := some "Revisado", batch_id := "B", loaded_at := 0 }

/-- A row whose magnitude text matches the regex but overflows
`NUMERIC(3,1)`. -/
def c2Overflow : RawRow :=
  { fecha_utc := some "19/09/2017", hora_utc := some "13:14:40",
    magnitud := some "123", latitud := some "18.0", longitud := some "-98.0",
    profundidad := some "57", referencia_localizacion := none,
    estatus := none, batch_id := "B", loaded_at := 0 }

/-- A row with an unparseable magnitude ("no calculable") and parseable
dates: the numeric failure degrades, the row is processed. -/
def c2NoCalc : RawRow :=
  { fecha_utc := some "19/09/2017", hora_utc := some "13:14:40",
    magnitud := some "no calculable", latitud := some "18.0", longitud := some "-98.0",
    profundidad := some "57", referencia_localizacion := none,
    estatus := none, batch_id := "B", loaded_at := 0 }

/-- A qualifying raw row for the C3 witness. -/
def c3Good : RawRow :=
  { fecha_utc := some "19/09/2017", hora_utc := some "13:14:40",
    magnitud := some "7.1", latitud := some "18.40", longitud := some "-98.72",
    profundidad := some "57", referencia_localizacion := some "12 km al sureste de AXOCHIAPAN, MOR",
    estatus := some "Revisado", batch_id := "B", loaded_at := 0 }

/-- The analytics row derived from `c3Good`. -/
def c3out : AnalyticsRow :=
  { earthquake_date := some ⟨2017, 9, 19⟩,
    earthquake_datetime := some ⟨⟨2017, 9, 19⟩, 13, 14, 40⟩,
    magnitude := some ⟨71, 1⟩, latitude := some ⟨1840000, 5⟩,
    longitude := some ⟨-9872000, 5⟩, depth_km := some ⟨5700, 2⟩,
    location_reference := some "12 km al sureste de AXOCHIAPAN, MOR",
    status := some "revisado",
    year := some 2017, month := some 9, day_of_week := some "Tuesday  ",
    hour_of_day := some 13,
    magnitude_category := "Great", depth_category := "Shallow",
    region := "Other", is_significant := some true, batch_id := "B" }

/-- A row of the batch whose magnitude fails coercion. -/
def c3BadMag : RawRow :=
  { fecha_utc := some "19/09/2017", hora_utc := some "13:14:40",
    magnitud := some "no calculable", latitud := some "18.40", longitud := some "-98.72",
    profundidad := some "57", referencia_localizacion := none,
    estatus := none, batch_id := "B", loaded_at := 0 }

/-- A qualifying row with magnitude 2.0 and an absent depth. -/
def c5row : RawRow :=
  { fecha_utc := some "19/09/2017", hora_utc := some "13:14:40",
    magnitud := some "2.0", latitud := some "18.1", longitud := some "-99.2",
    profundidad := some "no calculable",
    referencia_localizacion := some "12 km al este de OAXACA, OAX",
    estatus := some "Revisado", batch_id := "B", loaded_at := 0 }

/-- The analytics row derived from `c5row`: note `is_significant = none`. -/
def c5out : AnalyticsRow :=
  { earthquake_date := some ⟨2017, 9, 19⟩,
    earthquake_datetime := some ⟨⟨2017, 9, 19⟩, 13, 14, 40⟩,
    magnitude := some ⟨20, 1⟩, latitude := some ⟨1810000, 5⟩,
    longitude := some ⟨-9920000, 5⟩, depth_km := none,
    location_reference := some "12 km al este de OAXACA, OAX",
    status := some "revisado",
    year := some 2017, month := some 9, day_of_week := some "Tuesday  ",
    hour_of_day := some 13,
    magnitude_category := "Minor", depth_category := "Unknown",
    region := "Oaxaca", is_significant := none, batch_id := "B" }

/-- A source row for the pipeline examples. -/
def c7input : RawInput :=
  { fecha_utc := none, hora_utc := none, magnitud := none, latitud := none,
    longitud := none, profundidad := none, referencia_localizacion := none,
    estatus := none }

/-- A stale raw-store row already tagged with batch B (e.g. left behind
by a partially retried load). -/
def c7stale : RawRow :=
  { fecha_utc := none, hora_utc := none, magnitud := none, latitud := none,
    longitud := none, profundidad := none, referencia_localizacion := none,
    estatus := none, batch_id := "B", loaded_at := 1 }

/-- A run whose raw store already holds a row of the incoming batch, so
the validation count cannot match. -/
def c7env : PipeEnv :=
  { ts_nodash := "B", now := 0, csvExists := true, csv := [c7input],
    fs0 := [], raw0 := [c7stale], analytics0 := [] }

/-- The source row the C8 run extracts. -/
def c8input : RawInput :=
  { fecha_utc := none, hora_utc := none, magnitud := none, latitud := none,
    longitud := none, profundidad := none, referencia_localizacion := none,
    estatus := some "NEW" }

/-- The content of the pre-existing snapshot for the same batch. -/
def c8prior : RawInput :=
  { fecha_utc := none, hora_utc := none, magnitud := none, latitud := none,
    longitud := none, profundidad := none, referencia_localizacion := none,
    estatus := some "OLD" }

/-- A run for whose batch a snapshot artifact already exists. -/
def c8env : PipeEnv :=
  { ts_nodash := "B", now := 0, csvExists := true, csv := [c8input],
    fs0 := [(rawFilePath "B", [c8prior])], raw0 := [], analytics0 := [] }

/-- A source row whose gate columns coerce. -/
def c10input : RawInput :=
  { fecha_utc := none, hora_utc := none, magnitud := some "5",
    latitud := some "18", longitud := some "-99", profundidad := none,
    referencia_localizacion := none, estatus := none }

/-- A clean run of batch B over one source row. -/
def c10env : PipeEnv :=
  { ts_nodash := "B", now := 5, csvExists := true, csv := [c10input],
    fs0 := [], raw0 := [], analytics0 := [] }

/-- The analytics row the C10 run derives. -/
def c10row : AnalyticsRow :=
  { earthquake_date := none, earthquake_datetime := none,
    magnitude := some ⟨50, 1⟩, latitude := some ⟨1800000, 5⟩,
    longitude := some ⟨-9900000, 5⟩, depth_km := none,
    location_reference := none, status := none,
    year := none, month := none, day_of_week := none, hour_of_day := none,
    magnitude_category := "Strong", depth_category := "Unknown",
    region := "Other", is_significant := some true, batch_id := "B" }

/-- The final pipeline state of the C10 run. -/
def c10st : PipeState :=
  { fs := [(rawFilePath "B", [c10input])],
    rawStore := [stampRow "B" 5 c10input],
    analytics := [c10row],
    xcom := [(("load_raw_data", "loaded_records"), .n 1),
             (("extract_data", "record_count"), .n 1),
             (("extract_data", "raw_file"), .s (rawFilePath "B")),
             (("extract_data", "batch_id"), .s "B")] }
lemma pow10_pos (n : Nat) : 0 < pow10 n := by
  unfold pow10; exact pow_pos (by norm_num) n

lemma pow10_cast_pos (n : Nat) : (0 : ℚ) < ((pow10 n : ℕ) : ℚ) := by
  exact_mod_cast pow10_pos n

lemma PgNumeric.toRat_lt {a b : PgNumeric} :
    a.toRat < b.toRat ↔ a.mant * ((pow10 b.scale : ℕ) : ℤ) < b.mant * ((pow10 a.scale : ℕ) : ℤ) := by
  unfold PgNumeric.toRat
  rw [div_lt_div_iff₀ (pow10_cast_pos _) (pow10_cast_pos _)]
  constructor <;> intro h <;> exact_mod_cast h

lemma PgNumeric.toRat_le {a b : PgNumeric} :
    a.toRat ≤ b.toRat ↔ a.mant * ((pow10 b.scale : ℕ) : ℤ) ≤ b.mant * ((pow10 a.scale : ℕ) : ℤ) := by
  unfold PgNumeric.toRat
  rw [div_le_div_iff₀ (pow10_cast_pos _) (pow10_cast_pos _)]
  constructor <;> intro h <;> exact_mod_cast h

lemma PgNumeric.blt_iff (a b : PgNumeric) : (a.blt b = true) ↔ a.toRat < b.toRat := by
  simp only [PgNumeric.blt, decide_eq_true_eq]
  exact PgNumeric.toRat_lt.symm

lemma PgNumeric.ble_iff (a b : PgNumeric) : (a.ble b = true) ↔ a.toRat ≤ b.toRat := by
  simp only [PgNumeric.ble, decide_eq_true_eq]
  exact PgNumeric.toRat_le.symm

lemma numLit_toRat_30 : (numLit 30 1).toRat = 3 := by
  norm_num [PgNumeric.toRat, numLit, pow10]

lemma magnitudeCategory_eq (v : PgNumeric) :
    magnitudeCategory (some v) =
      if v.toRat < 3 then "Minor"
      else if v.toRat < 4 then "Light"
      else if v.toRat < 5 then "Moderate"
      else if v.toRat < 6 then "Strong"
      else if v.toRat < 7 then "Major"
      else "Great" := by
  have h3 : (numLit 30 1).toRat = 3 := by norm_num [PgNumeric.toRat, numLit, pow10]
  have h4 : (numLit 40 1).toRat = 4 := by norm_num [PgNumeric.toRat, numLit, pow10]
  have h5 : (numLit 50 1).toRat = 5 := by norm_num [PgNumeric.toRat, numLit, pow10]
  have h6 : (numLit 60 1).toRat = 6 := by norm_num [PgNumeric.toRat, numLit, pow10]
  have h7 : (numLit 70 1).toRat = 7 := by norm_num [PgNumeric.toRat, numLit, pow10]
  simp only [magnitudeCategory, Bool.and_eq_true, PgNumeric.blt_iff, PgNumeric.ble_iff,
    h3, h4, h5, h6, h7]
  split_ifs <;>
    first
      | rfl
      | (exfalso; simp only [not_and_or, not_lt, not_le] at *;
          (try casesm* _ ∨ _) <;> linarith)

lemma depthCategory_eq (v : PgNumeric) :
    depthCategory (some v) =
      if v.toRat < 70 then "Shallow"
      else if v.toRat < 300 then "Intermediate"
      else "Deep" := by
  have h70 : (numLit 70 0).toRat = 70 := by norm_num [PgNumeric.toRat, numLit, pow10]
  have h300 : (numLit 300 0).toRat = 300 := by norm_num [PgNumeric.toRat, numLit, pow10]
  simp only [depthCategory, Bool.and_eq_true, PgNumeric.blt_iff, PgNumeric.ble_iff, h70, h300]
  split_ifs <;>
    first
      | rfl
      | (exfalso; simp only [not_and_or, not_lt, not_le] at *;
          (try casesm* _ ∨ _) <;> linarith)

lemma isSignificantExpr_some_some (m dv : PgNumeric) :
    (isSignificantExpr (some m) (some dv) = some true ↔ 5 ≤ m.toRat ∨ dv.toRat < 50) ∧
    (isSignificantExpr (some m) (some dv) = some false ↔ m.toRat < 5 ∧ 50 ≤ dv.toRat) := by
  have h5 : (numLit 50 1).toRat = 5 := by norm_num [PgNumeric.toRat, numLit, pow10]
  have h50 : (numLit 50 0).toRat = 50 := by norm_num [PgNumeric.toRat, numLit, pow10]
  have hb : (numLit 50 1).ble m = decide (5 ≤ m.toRat) := by
    rw [Bool.eq_iff_iff, PgNumeric.ble_iff, h5, decide_eq_true_eq]
  have hd : dv.blt (numLit 50 0) = decide (dv.toRat < 50) := by
    rw [Bool.eq_iff_iff, PgNumeric.blt_iff, h50, decide_eq_true_eq]
  unfold isSignificantExpr sqlGe sqlLt
  simp only [Option.map, hb, hd]
  by_cases P : 5 ≤ m.toRat <;> by_cases Q : dv.toRat < 50
  · simp [sqlOr, decide_eq_true P, decide_eq_true Q, P, Q, not_lt.mpr P]
  · simp [sqlOr, decide_eq_true P, decide_eq_false Q, P, Q, not_lt.mpr P]
  · simp [sqlOr, decide_eq_false P, decide_eq_true Q, P, Q, not_le.mp P]
  · simp [sqlOr, decide_eq_false P, decide_eq_false Q, P, Q, not_le.mp P, not_lt.mp Q]

lemma isSignificantExpr_some_none (m : PgNumeric) :
    (isSignificantExpr (some m) none = some true ↔ 5 ≤ m.toRat) ∧
    (isSignificantExpr (some m) none = none ↔ m.toRat < 5) ∧
    isSignificantExpr (some m) none ≠ some false := by
  have h5 : (numLit 50 1).toRat = 5 := by norm_num [PgNumeric.toRat, numLit, pow10]
  have hb : (numLit 50 1).ble m = decide (5 ≤ m.toRat) := by
    rw [Bool.eq_iff_iff, PgNumeric.ble_iff, h5, decide_eq_true_eq]
  unfold isSignificantExpr sqlGe sqlLt
  simp only [Option.map, hb]
  by_cases P : 5 ≤ m.toRat
  · simp [sqlOr, decide_eq_true P, P]
  · simp [sqlOr, decide_eq_false P, P, not_le.mp P]

lemma enrich_ok_eq {r : RawRow} {m la lo : PgNumeric} {a : AnalyticsRow}
    (h : enrich r m la lo = .ok a) :
    ∃ dep d t, coerceDepthKm r.profundidad = .ok dep ∧ dateOf r = .ok d ∧
      datetimeOf r = .ok t ∧ a = mkAnalyticsRow r m la lo dep d t := by
  unfold enrich at h
  cases hdep : coerceDepthKm r.profundidad with
  | error e => rw [hdep] at h; simp at h
  | ok dep =>
    rw [hdep] at h
    cases hd : dateOf r with
    | error e => rw [hd] at h; simp at h
    | ok d =>
      rw [hd] at h
      cases ht : datetimeOf r with
      | error e => rw [ht] at h; simp at h
      | ok t =>
        rw [ht] at h
        simp only [Except.ok.injEq] at h
        exact ⟨dep, d, t, rfl, rfl, rfl, h.symm⟩

lemma transformRow_ok_some {r : RawRow} {a : AnalyticsRow}
    (h : transformRow r = .ok (some a)) :
    ∃ m la lo dep d t, gateVals r = .ok (some (m, la, lo)) ∧
      a = mkAnalyticsRow r m la lo dep d t := by
  unfold transformRow at h
  cases hg : gateVals r with
  | error e => rw [hg] at h; simp at h
  | ok o =>
    rw [hg] at h
    match o with
    | none => simp at h
    | some (m, la, lo) =>
      simp only at h
      cases he : enrich r m la lo with
      | error e => rw [he] at h; simp [Except.map] at h
      | ok a' =>
        rw [he] at h
        simp only [Except.map, Except.ok.injEq, Option.some.injEq] at h
        obtain ⟨dep, d, t, _, _, _, ha⟩ := enrich_ok_eq he
        exact ⟨m, la, lo, dep, d, t, rfl, h ▸ ha⟩

lemma transformRows_ok_mem {l : List RawRow} {out : List AnalyticsRow}
    (h : transformRows l = .ok out) :
    ∀ a ∈ out, ∃ r, r ∈ l ∧ transformRow r = .ok (some a) := by
  induction l generalizing out with
  | nil =>
    unfold transformRows at h
    simp only [Except.ok.injEq] at h
    subst h
    intro a ha
    simp at ha
  | cons r rest ih =>
    unfold transformRows at h
    cases h1 : transformRow r with
    | error e => rw [h1] at h; simp at h
    | ok o =>
      rw [h1] at h
      cases h2 : transformRows rest with
      | error e => rw [h2] at h; simp at h
      | ok tl =>
        rw [h2] at h
        simp only [Except.ok.injEq] at h
        subst h
        intro a ha
        cases o with
        | none =>
          obtain ⟨r', hr', hro⟩ := ih h2 a ha
          exact ⟨r', List.mem_cons_of_mem _ hr', hro⟩
        | some a0 =>
          rcases List.mem_cons.mp ha with rfl | ha'
          · exact ⟨r, List.mem_cons_self _ _, h1⟩
          · obtain ⟨r', hr', hro⟩ := ih h2 a ha'
            exact ⟨r', List.mem_cons_of_mem _ hr', hro⟩

lemma transformRow_isSome_gate {r : RawRow} {o : Option AnalyticsRow}
    (h : transformRow r = .ok o) :
    o.isSome = (coercedSome (coerceMagnitude r.magnitud) &&
      coercedSome (coerceLatitude r.latitud) &&
      coercedSome (coerceLongitude r.longitud)) := by
  unfold transformRow gateVals at h
  cases hm : coerceMagnitude r.magnitud with
  | error e => rw [hm] at h; simp at h
  | ok mo =>
    rw [hm] at h
    cases hla : coerceLatitude r.latitud with
    | error e => rw [hla] at h; simp at h
    | ok lao =>
      rw [hla] at h
      cases hlo : coerceLongitude r.longitud with
      | error e => rw [hlo] at h; simp at h
      | ok loo =>
        rw [hlo] at h
        cases mo with
        | none =>
          cases lao <;> cases loo <;>
            (simp only [Except.ok.injEq] at h; subst h; simp [coercedSome, hm, hla, hlo])
        | some m =>
          cases lao with
          | none =>
            cases loo <;>
              (simp only [Except.ok.injEq] at h; subst h; simp [coercedSome, hm, hla, hlo])
          | some la =>
            cases loo with
            | none =>
              simp only [Except.ok.injEq] at h; subst h
              simp [coercedSome, hm, hla, hlo]
            | some lo =>
              simp only at h
              cases he : enrich r m la lo with
              | error e => rw [he] at h; simp [Except.map] at h
              | ok a' =>
                rw [he] at h
                simp only [Except.map, Except.ok.injEq] at h
                subst h
                simp [coercedSome, hm, hla, hlo]

lemma transformRow_no_raise {r : RawRow} (hdates : datesOk r = true)
    (hnums : numericsSafe r = true) : exOk (transformRow r) = true := by
  unfold datesOk at hdates
  unfold numericsSafe at hnums
  rw [Bool.and_eq_true] at hdates
  rw [Bool.and_eq_true, Bool.and_eq_true, Bool.and_eq_true] at hnums
  obtain ⟨⟨⟨hm, hla⟩, hlo⟩, hdep⟩ := hnums
  obtain ⟨hd, ht⟩ := hdates
  unfold transformRow gateVals
  cases h1 : coerceMagnitude r.magnitud with
  | error e => rw [h1] at hm; simp [exOk] at hm
  | ok mo =>
    cases h2 : coerceLatitude r.latitud with
    | error e => rw [h2] at hla; simp [exOk] at hla
    | ok lao =>
      cases h3 : coerceLongitude r.longitud with
      | error e => rw [h3] at hlo; simp [exOk] at hlo
      | ok loo =>
        cases mo with
        | none => cases lao <;> cases loo <;> simp [exOk]
        | some m =>
          cases lao with
          | none => cases loo <;> simp [exOk]
          | some la =>
            cases loo with
            | none => simp [exOk]
            | some lo =>
              simp only
              unfold enrich
              cases h4 : coerceDepthKm r.profundidad with
              | error e => rw [h4] at hdep; simp [exOk] at hdep
              | ok dep =>
                cases h5 : dateOf r with
                | error e => rw [h5] at hd; simp [exOk] at hd
                | ok d =>
                  cases h6 : datetimeOf r with
                  | error e => rw [h6] at ht; simp [exOk] at ht
                  | ok t => simp [exOk, Except.map]

lemma coerceField_ok_none_iff (allowNeg : Bool) (p sc : Nat) (s : String) :
    coerceField allowNeg p sc (some s) = .ok none ↔
      pgRegexNum allowNeg (trimSpaces s.data) = false := by
  by_cases h : pgRegexNum allowNeg (trimSpaces s.data) = true
  · cases hc : pgNumericCast p sc (decValSigned (trimSpaces s.data)) <;>
      simp [coerceField, h, hc, Except.map]
  · have hf : pgRegexNum allowNeg (trimSpaces s.data) = false := by
      cases hx : pgRegexNum allowNeg (trimSpaces s.data)
      · rfl
      · exact absurd hx h
    simp [coerceField, hf]

lemma coerceField_ok_some (allowNeg : Bool) (p sc : Nat) (s : String)
    (h : pgRegexNum allowNeg (trimSpaces s.data) = true)
    (hr : (pgRoundToScale sc (decValSigned (trimSpaces s.data))).mant.natAbs < pow10 p) :
    coerceField allowNeg p sc (some s) =
      .ok (some (pgRoundToScale sc (decValSigned (trimSpaces s.data)))) := by
  simp [coerceField, h, pgNumericCast, hr, Except.map]

lemma runTransform_ok {raw : List RawRow} {batch : String} {rows : List AnalyticsRow}
    (h : transformBatch raw batch = .ok rows) (analytics : List AnalyticsRow) :
    runTransform analytics raw batch = .ok (analytics ++ rows) := by
  unfold runTransform; rw [h]

/-- C1 (amended): `TRANSFORM_SQL` is a plain `INSERT ... SELECT` with no
batch-scoped delete or overwrite, so running the Transformer twice for
the same batch on unchanged raw data does NOT yield the same analytics
row set: each run appends the batch's transformed rows again, and after
two runs the analytics table holds two copies of every qualifying row. -/
theorem transform_rerun_appends_batch_again :
    ∀ (raw : List RawRow) (batch : String) (rows : List AnalyticsRow),
    transformBatch raw batch = .ok rows →
    runTransform [] raw batch = .ok rows ∧
    (runTransform [] raw batch).bind (fun t => runTransform t raw batch) = .ok (rows ++ rows) := by
  intro raw batch rows h
  have h1 := runTransform_ok h []
  rw [List.nil_append] at h1
  refine ⟨h1, ?_⟩
  rw [h1]
  exact runTransform_ok h rows

theorem transform_rerun_witness :
    runTransform [] c1raw "B" = .ok [c1out] ∧
    (runTransform [] c1raw "B").bind (fun t => runTransform t c1raw "B") = .ok ([c1out] ++ [c1out]) :=
  transform_rerun_appends_batch_again c1raw "B" [c1out] (by decide)

theorem transform_rerun_counterexample :
    runTransform [] c1raw "B" = .ok [c1out] ∧
    (runTransform [] c1raw "B").bind (fun t => runTransform t c1raw "B") = .ok [c1out, c1out] ∧
    [c1out, c1out] ≠ [c1out] ∧ ¬ [c1out, c1out].Nodup :=
  ⟨by decide, by decide, by decide, by decide⟩

/-- C2 (amended): numeric coercion failures never raise — any value whose
trimmed text fails the field's regex degrades to an absent value for that
field and the row is still attempted; and a row none of whose guarded
numerics raises and both of whose date/time expressions parse (or are
NULL) is processed without error.  (Unparseable non-NULL date/time text,
and regex-passing numerics that overflow their column precision, DO
raise and abort the whole transform — see the counterexample.) -/
theorem coercion_failure_handling :
    (∀ (allowNeg : Bool) (p sc : Nat) (t : String),
        pgRegexNum allowNeg (trimSpaces t.data) = false →
        coerceField allowNeg p sc (some t) = .ok none) ∧
    (∀ r : RawRow, datesOk r = true → numericsSafe r = true →
        exOk (transformRow r) = true) := by
  constructor
  · intro an p sc t h; simp [coerceField, h]
  · intro r h1 h2; exact transformRow_no_raise h1 h2

theorem coercion_failure_handling_witness :
    coerceField false 3 1 (some "no calculable") = .ok none ∧
    exOk (transformRow c2NoCalc) = true :=
  ⟨coercion_failure_handling.1 false 3 1 "no calculable" (by decide),
   coercion_failure_handling.2 c2NoCalc (by decide) (by decide)⟩

theorem coercion_failure_counterexample :
    gateVals c2BadDate = .ok (some (⟨40, 1⟩, ⟨1800000, 5⟩, ⟨-9800000, 5⟩)) ∧
    transformRow c2BadDate = .error "invalid value for DD/MM/YYYY" ∧
    transformRows [c2Good, c2BadDate] = .error "invalid value for DD/MM/YYYY" ∧
    transformRow c2Overflow = .error "numeric field overflow" :=
  ⟨by decide, by decide, by decide, by decide⟩

/-- C3: when the transform statement completes, every inserted analytics
row has non-NULL magnitude, latitude and longitude, and a raw row of the
batch yields an analytics row if and only if magnitude, latitude and
longitude all coerce successfully; rows failing the gate are silently
dropped. -/
theorem analytics_row_gate :
    (∀ (raw : List RawRow) (batch : String) (out : List AnalyticsRow),
        transformBatch raw batch = .ok out →
        ∀ a ∈ out, a.magnitude ≠ none ∧ a.latitude ≠ none ∧ a.longitude ≠ none) ∧
    (∀ (r : RawRow) (o : Option AnalyticsRow), transformRow r = .ok o →
        o.isSome = (coercedSome (coerceMagnitude r.magnitud) &&
          coercedSome (coerceLatitude r.latitud) &&
          coercedSome (coerceLongitude r.longitud))) := by
  constructor
  · intro raw batch out h a ha
    obtain ⟨r, _, hro⟩ := transformRows_ok_mem h a ha
    obtain ⟨m, la, lo, dep, d, t, _, ha'⟩ := transformRow_ok_some hro
    subst ha'
    exact ⟨by simp [mkAnalyticsRow], by simp [mkAnalyticsRow], by simp [mkAnalyticsRow]⟩
  · intro r o h; exact transformRow_isSome_gate h

theorem analytics_row_gate_witness :
    (c3out.magnitude ≠ none ∧ c3out.latitude ≠ none ∧ c3out.longitude ≠ none) ∧
    (some c3out : Option AnalyticsRow).isSome =
      (coercedSome (coerceMagnitude c3Good.magnitud) &&
        coercedSome (coerceLatitude c3Good.latitud) &&
        coercedSome (coerceLongitude c3Good.longitud)) ∧
    (none : Option AnalyticsRow).isSome =
      (coercedSome (coerceMagnitude c3BadMag.magnitud) &&
        coercedSome (coerceLatitude c3BadMag.latitud) &&
        coercedSome (coerceLongitude c3BadMag.longitud)) :=
  ⟨analytics_row_gate.1 [c3Good] "B" [c3out] (by decide) c3out (by decide),
   analytics_row_gate.2 c3Good (some c3out) (by decide),
   analytics_row_gate.2 c3BadMag none (by decide)⟩

/-- C4 (amended): a trimmed textual value coerces to NULL (an explicit
absent value, never an exception) exactly when it fails its field's
anchored decimal pattern — which admits the optional leading minus ONLY
for latitude and longitude; magnitude and depth accept unsigned decimals
only.  A matching value is rounded to the column scale and stored when
it fits the column precision; NULL input stays NULL. -/
theorem numeric_coercion_pattern :
    (∀ s : String,
        (coerceMagnitude (some s) = .ok none ↔ pgRegexNum false (trimSpaces s.data) = false) ∧
        (coerceDepthKm (some s) = .ok none ↔ pgRegexNum false (trimSpaces s.data) = false) ∧
        (coerceLatitude (some s) = .ok none ↔ pgRegexNum true (trimSpaces s.data) = false) ∧
        (coerceLongitude (some s) = .ok none ↔ pgRegexNum true (trimSpaces s.data) = false)) ∧
    (∀ s : String, pgRegexNum false (trimSpaces s.data) = true →
        (pgRoundToScale 1 (decValSigned (trimSpaces s.data))).mant.natAbs < pow10 3 →
        coerceMagnitude (some s) = .ok (some (pgRoundToScale 1 (decValSigned (trimSpaces s.data))))) ∧
    (∀ s : String, pgRegexNum true (trimSpaces s.data) = true →
        (pgRoundToScale 5 (decValSigned (trimSpaces s.data))).mant.natAbs < pow10 8 →
        coerceLatitude (some s) = .ok (some (pgRoundToScale 5 (decValSigned (trimSpaces s.data))))) ∧
    coerceMagnitude none = .ok none := by
  refine ⟨fun s => ⟨?_, ?_, ?_, ?_⟩, fun s h hr => ?_, fun s h hr => ?_, by decide⟩
  · exact coerceField_ok_none_iff false 3 1 s
  · exact coerceField_ok_none_iff false 6 2 s
  · exact coerceField_ok_none_iff true 8 5 s
  · exact coerceField_ok_none_iff true 8 5 s
  · exact coerceField_ok_some false 3 1 s h hr
  · exact coerceField_ok_some true 8 5 s h hr

theorem numeric_coercion_pattern_witness :
    coerceMagnitude (some "4.5") =
      .ok (some (pgRoundToScale 1 (decValSigned (trimSpaces "4.5".data)))) ∧
    coerceLatitude (some "-98.72") =
      .ok (some (pgRoundToScale 5 (decValSigned (trimSpaces "-98.72".data)))) ∧
    (coerceMagnitude (some "under review") = .ok none ↔
      pgRegexNum false (trimSpaces "under review".data) = false) :=
  ⟨numeric_coercion_pattern.2.1 "4.5" (by decide) (by decide),
   numeric_coercion_pattern.2.2.1 "-98.72" (by decide) (by decide),
   (numeric_coercion_pattern.1 "under review").1⟩

theorem numeric_coercion_counterexample :
    pgRegexNum true (trimSpaces "-1.0".data) = true ∧
    coerceMagnitude (some "-1.0") = .ok none ∧
    coerceLatitude (some "-1.0") = .ok (some ⟨-100000, 5⟩) ∧
    coerceDepthKm (some "-1.0") = .ok none ∧
    pgRegexNum false (trimSpaces "100".data) = true ∧
    coerceMagnitude (some "100") = .error "numeric field overflow" :=
  ⟨by decide, by decide, by decide, by decide, by decide, by decide⟩

/-- C5 (amended): every inserted analytics row's `is_significant` is the
SQL expression `magnitude >= 5.0 OR depth_km < 50` under three-valued
logic: with depth present it is true iff magnitude ≥ 5 or depth < 50 and
false otherwise; with depth absent it is true when magnitude ≥ 5 but
NULL (never false) when magnitude < 5.  Magnitude 5.0/depth 100 → true,
2.0/40 → true, 2.0/100 → false. -/
theorem significance_flag :
    (∀ (r : RawRow) (a : AnalyticsRow), transformRow r = .ok (some a) →
        a.is_significant = isSignificantExpr a.magnitude a.depth_km) ∧
    (∀ m dv : PgNumeric,
        (isSignificantExpr (some m) (some dv) = some true ↔ 5 ≤ m.toRat ∨ dv.toRat < 50) ∧
        (isSignificantExpr (some m) (some dv) = some false ↔ m.toRat < 5 ∧ 50 ≤ dv.toRat)) ∧
    (∀ m : PgNumeric,
        (isSignificantExpr (some m) none = some true ↔ 5 ≤ m.toRat) ∧
        (isSignificantExpr (some m) none = none ↔ m.toRat < 5) ∧
        isSignificantExpr (some m) none ≠ some false) ∧
    isSignificantExpr (some (numLit 50 1)) (some (numLit 10000 2)) = some true ∧
    isSignificantExpr (some (numLit 20 1)) (some (numLit 4000 2)) = some true ∧
    isSignificantExpr (some (numLit 20 1)) (some (numLit 10000 2)) = some false := by
  refine ⟨?_, isSignificantExpr_some_some, isSignificantExpr_some_none,
    by decide, by decide, by decide⟩
  intro r a h
  obtain ⟨m, la, lo, dep, d, t, _, ha⟩ := transformRow_ok_some h
  subst ha
  rfl

theorem significance_flag_witness :
    c5out.is_significant = isSignificantExpr c5out.magnitude c5out.depth_km ∧
    (isSignificantExpr (some (numLit 20 1)) (some (numLit 10000 2)) = some false ↔
      (numLit 20 1).toRat < 5 ∧ 50 ≤ (numLit 10000 2).toRat) :=
  ⟨significance_flag.1 c5row c5out (by decide),
   (significance_flag.2.1 (numLit 20 1) (numLit 10000 2)).2⟩

theorem significance_flag_counterexample :
    transformRow c5row = .ok (some c5out) ∧
    c5out.magnitude = some (numLit 20 1) ∧
    c5out.depth_km = none ∧
    c5out.is_significant = none ∧
    c5out.is_significant ≠ some false :=
  ⟨by decide, by decide, by decide, by decide, by decide⟩

/-- C6 (amended): on the stored values the categories follow exactly the
closed-open breakpoints (<3 Minor, [3,4) Light, [4,5) Moderate, [5,6)
Strong, [6,7) Major, ≥7 Great; <70 Shallow, [70,300) Intermediate, ≥300
Deep; NULL → Unknown), and magnitude 3.0 → Light and depth 70 →
Intermediate; but coercion rounds magnitude to NUMERIC(3,1) and depth to
NUMERIC(6,2), so source text 6.999 is stored as 7.0 (→ Great, not
Major) and 69.999 as 70.00 (→ Intermediate, not Shallow). -/
theorem category_breakpoints :
    (∀ v : PgNumeric, magnitudeCategory (some v) =
        if v.toRat < 3 then "Minor" else if v.toRat < 4 then "Light"
        else if v.toRat < 5 then "Moderate" else if v.toRat < 6 then "Strong"
        else if v.toRat < 7 then "Major" else "Great") ∧
    magnitudeCategory none = "Unknown" ∧
    (∀ v : PgNumeric, depthCategory (some v) =
        if v.toRat < 70 then "Shallow" else if v.toRat < 300 then "Intermediate" else "Deep") ∧
    depthCategory none = "Unknown" ∧
    coerceMagnitude (some "3.0") = .ok (some (numLit 30 1)) ∧
    magnitudeCategory (some (numLit 30 1)) = "Light" ∧
    coerceMagnitude (some "6.999") = .ok (some (numLit 70 1)) ∧
    magnitudeCategory (some (numLit 70 1)) = "Great" ∧
    coerceDepthKm (some "70") = .ok (some (numLit 7000 2)) ∧
    coerceDepthKm (some "69.999") = .ok (some (numLit 7000 2)) ∧
    depthCategory (some (numLit 7000 2)) = "Intermediate" :=
  ⟨magnitudeCategory_eq, rfl, depthCategory_eq, rfl, by decide, by decide,
   by decide, by decide, by decide, by decide, by decide⟩

theorem category_breakpoints_counterexample :
    coerceMagnitude (some "6.999") = .ok (some (numLit 70 1)) ∧
    magnitudeCategory (some (numLit 70 1)) = "Great" ∧
    magnitudeCategory (some (numLit 70 1)) ≠ "Major" ∧
    coerceDepthKm (some "69.999") = .ok (some (numLit 7000 2)) ∧
    depthCategory (some (numLit 7000 2)) = "Intermediate" ∧
    depthCategory (some (numLit 7000 2)) ≠ "Shallow" :=
  ⟨by decide, by decide, by decide, by decide, by decide, by decide⟩

lemma fsRead_fsWrite (fs : SnapshotStore) (p : String) (c : List RawInput) :
    fsRead (fsWrite fs p c) p = some c := by
  simp [fsRead, fsWrite, List.find?]

lemma filter_stamped_length (rows : List RawInput) (b : String) (n : Nat) :
    ((rows.map (stampRow b n)).filter (fun r => r.batch_id == b)).length = rows.length := by
  induction rows with
  | nil => rfl
  | cons r t ih => simp [stampRow, List.filter, ih]

lemma transformBatch_mem_batch {raw : List RawRow} {batch : String} {out : List AnalyticsRow}
    (h : transformBatch raw batch = .ok out) : ∀ a ∈ out, a.batch_id = batch := by
  intro a ha
  unfold transformBatch at h
  obtain ⟨r, hr, hro⟩ := transformRows_ok_mem h a ha
  obtain ⟨m, la, lo, dep, d, t, _, ha'⟩ := transformRow_ok_some hro
  have hb : (r.batch_id == batch) = true := (List.mem_filter.mp hr).2
  have hab : a.batch_id = r.batch_id := by subst ha'; rfl
  rw [hab]
  exact eq_of_beq hb

/-- C7: when the raw-store count of rows tagged with the run's batch_id
differs from the extraction's expected row count (here: stale rows of
the same batch already present), the Validator raises its
count-mismatch error, the run halts after `load_raw_data`, and
`transform_to_analytics` never executes — validation is a hard gate
ahead of transformation. -/
theorem validation_gate_blocks_transform :
    ∀ env : PipeEnv, env.csvExists = true →
    (env.raw0.filter (fun r => r.batch_id == env.ts_nodash)).length ≠ 0 →
    (runPipeline env).1 = ["extract_data", "load_raw_data"] ∧
    (∃ e, (runPipeline env).2 = .error e) ∧
    "transform_to_analytics" ∉ (runPipeline env).1 := by
  intro env hcsv hk
  have he : extract_earthquake_data env ⟨env.fs0, env.raw0, env.analytics0, []⟩ =
      .ok ⟨fsWrite env.fs0 (rawFilePath env.ts_nodash) env.csv, env.raw0, env.analytics0,
        xpush (xpush (xpush [] "extract_data" "batch_id" (.s env.ts_nodash))
          "extract_data" "raw_file" (.s (rawFilePath env.ts_nodash)))
          "extract_data" "record_count" (.n env.csv.length)⟩ := by
    simp [extract_earthquake_data, hcsv]
  have hl : load_raw_data env
      ⟨fsWrite env.fs0 (rawFilePath env.ts_nodash) env.csv, env.raw0, env.analytics0,
        xpush (xpush (xpush [] "extract_data" "batch_id" (.s env.ts_nodash))
          "extract_data" "raw_file" (.s (rawFilePath env.ts_nodash)))
          "extract_data" "record_count" (.n env.csv.length)⟩ =
      .ok ⟨fsWrite env.fs0 (rawFilePath env.ts_nodash) env.csv,
        env.raw0 ++ env.csv.map (stampRow env.ts_nodash env.now), env.analytics0,
        xpush (xpush (xpush (xpush [] "extract_data" "batch_id" (.s env.ts_nodash))
          "extract_data" "raw_file" (.s (rawFilePath env.ts_nodash)))
          "extract_data" "record_count" (.n env.csv.length))
          "load_raw_data" "loaded_records" (.n (env.csv.map (stampRow env.ts_nodash env.now)).length)⟩ := by
    simp only [load_raw_data,
      show xpull (xpush (xpush (xpush [] "extract_data" "batch_id" (.s env.ts_nodash))
        "extract_data" "raw_file" (.s (rawFilePath env.ts_nodash)))
        "extract_data" "record_count" (.n env.csv.length)) "batch_id" "extract_data" =
        some (XVal.s env.ts_nodash) from rfl,
      show xpull (xpush (xpush (xpush [] "extract_data" "batch_id" (.s env.ts_nodash))
        "extract_data" "raw_file" (.s (rawFilePath env.ts_nodash)))
        "extract_data" "record_count" (.n env.csv.length)) "raw_file" "extract_data" =
        some (XVal.s (rawFilePath env.ts_nodash)) from rfl,
      fsRead_fsWrite]
  have hcount : ((env.raw0 ++ env.csv.map (stampRow env.ts_nodash env.now)).filter
      (fun r => r.batch_id == env.ts_nodash)).length =
      (env.raw0.filter (fun r => r.batch_id == env.ts_nodash)).length + env.csv.length := by
    rw [List.filter_append, List.length_append, filter_stamped_length]
  have hbeq : (((env.raw0 ++ env.csv.map (stampRow env.ts_nodash env.now)).filter
      (fun r => r.batch_id == env.ts_nodash)).length == env.csv.length) = false := by
    rw [hcount]
    cases hx : ((env.raw0.filter (fun r => r.batch_id == env.ts_nodash)).length +
        env.csv.length == env.csv.length) with
    | false => rfl
    | true =>
      exfalso
      have := eq_of_beq hx
      omega
  have hv : validate_raw_data env
      ⟨fsWrite env.fs0 (rawFilePath env.ts_nodash) env.csv,
        env.raw0 ++ env.csv.map (stampRow env.ts_nodash env.now), env.analytics0,
        xpush (xpush (xpush (xpush [] "extract_data" "batch_id" (.s env.ts_nodash))
          "extract_data" "raw_file" (.s (rawFilePath env.ts_nodash)))
          "extract_data" "record_count" (.n env.csv.length))
          "load_raw_data" "loaded_records" (.n (env.csv.map (stampRow env.ts_nodash env.now)).length)⟩ =
      .error ("Validation failed: Expected " ++ toString env.csv.length ++ ", got " ++
        toString ((env.raw0 ++ env.csv.map (stampRow env.ts_nodash env.now)).filter
          (fun r => r.batch_id == env.ts_nodash)).length) := by
    simp only [validate_raw_data,
      show xpull (xpush (xpush (xpush (xpush [] "extract_data" "batch_id" (.s env.ts_nodash))
        "extract_data" "raw_file" (.s (rawFilePath env.ts_nodash)))
        "extract_data" "record_count" (.n env.csv.length))
        "load_raw_data" "loaded_records" (.n (env.csv.map (stampRow env.ts_nodash env.now)).length))
        "batch_id" "extract_data" = some (XVal.s env.ts_nodash) from rfl,
      show xpull (xpush (xpush (xpush (xpush [] "extract_data" "batch_id" (.s env.ts_nodash))
        "extract_data" "raw_file" (.s (rawFilePath env.ts_nodash)))
        "extract_data" "record_count" (.n env.csv.length))
        "load_raw_data" "loaded_records" (.n (env.csv.map (stampRow env.ts_nodash env.now)).length))
        "record_count" "extract_data" = some (XVal.n env.csv.length) from rfl,
      hbeq]
    simp
  simp only [runPipeline, he, hl, hv]
  refine ⟨trivial, ⟨_, rfl⟩, ?_⟩
  decide

theorem validation_gate_witness :
    (runPipeline c7env).1 = ["extract_data", "load_raw_data"] ∧
    (∃ e, (runPipeline c7env).2 = .error e) ∧
    "transform_to_analytics" ∉ (runPipeline c7env).1 :=
  validation_gate_blocks_transform c7env (by decide) (by decide)

/-- C8 (amended): the Extractor never checks for a prior snapshot: when
the source exists it always succeeds, writing the batch snapshot at the
batch-derived path and silently replacing whatever was there; there is
no DuplicateBatch error. -/
theorem extract_overwrites_snapshot :
    ∀ (env : PipeEnv) (st : PipeState), env.csvExists = true →
    extract_earthquake_data env st = .ok { st with
      fs := fsWrite st.fs (rawFilePath env.ts_nodash) env.csv,
      xcom := xpush (xpush (xpush st.xcom "extract_data" "batch_id" (.s env.ts_nodash))
        "extract_data" "raw_file" (.s (rawFilePath env.ts_nodash)))
        "extract_data" "record_count" (.n env.csv.length) } ∧
    fsRead (fsWrite st.fs (rawFilePath env.ts_nodash) env.csv) (rawFilePath env.ts_nodash) =
      some env.csv := by
  intro env st h
  exact ⟨by simp [extract_earthquake_data, h], fsRead_fsWrite _ _ _⟩

theorem extract_overwrites_witness :
    extract_earthquake_data c8env ⟨c8env.fs0, c8env.raw0, c8env.analytics0, []⟩ =
      .ok { (⟨c8env.fs0, c8env.raw0, c8env.analytics0, []⟩ : PipeState) with
        fs := fsWrite c8env.fs0 (rawFilePath c8env.ts_nodash) c8env.csv,
        xcom := xpush (xpush (xpush [] "extract_data" "batch_id" (.s c8env.ts_nodash))
          "extract_data" "raw_file" (.s (rawFilePath c8env.ts_nodash)))
          "extract_data" "record_count" (.n c8env.csv.length) } ∧
    fsRead (fsWrite c8env.fs0 (rawFilePath c8env.ts_nodash) c8env.csv)
      (rawFilePath c8env.ts_nodash) = some c8env.csv :=
  extract_overwrites_snapshot c8env ⟨c8env.fs0, c8env.raw0, c8env.analytics0, []⟩ (by decide)

theorem extract_duplicate_batch_counterexample :
    fsRead c8env.fs0 (rawFilePath "B") = some [c8prior] ∧
    exOk (extract_earthquake_data c8env ⟨c8env.fs0, [], [], []⟩) = true ∧
    (extract_earthquake_data c8env ⟨c8env.fs0, [], [], []⟩).map
      (fun s => fsRead s.fs (rawFilePath "B")) = .ok (some [c8input]) ∧
    [c8input] ≠ [c8prior] :=
  ⟨by decide, by decide, by decide, by decide⟩

/-- C10: in a successful run every stage operates on the single batch
identifier derived from the run timestamp: the Extractor publishes
`ts_nodash` as `batch_id` via XCom, the Loader tags exactly the
extracted rows with it, the Validator's count over rows tagged with it
equals the extraction count, and the Transformer's inserted rows are
exactly a transform of the rows tagged with it, all carrying the same
`batch_id`. -/
theorem batch_id_shared_across_stages :
    ∀ (env : PipeEnv) (st : PipeState), env.csvExists = true →
    (runPipeline env).2 = .ok st →
    xpull st.xcom "batch_id" "extract_data" = some (.s env.ts_nodash) ∧
    st.rawStore = env.raw0 ++ env.csv.map (stampRow env.ts_nodash env.now) ∧
    (st.rawStore.filter (fun r => r.batch_id == env.ts_nodash)).length = env.csv.length ∧
    ∃ rows, transformBatch st.rawStore env.ts_nodash = .ok rows ∧
      st.analytics = env.analytics0 ++ rows ∧
      ∀ a ∈ rows, a.batch_id = env.ts_nodash := by
  intro env st hcsv hrun
  have he : extract_earthquake_data env ⟨env.fs0, env.raw0, env.analytics0, []⟩ =
      .ok ⟨fsWrite env.fs0 (rawFilePath env.ts_nodash) env.csv, env.raw0, env.analytics0,
        xpush (xpush (xpush [] "extract_data" "batch_id" (.s env.ts_nodash))
          "extract_data" "raw_file" (.s (rawFilePath env.ts_nodash)))
          "extract_data" "record_count" (.n env.csv.length)⟩ := by
    simp [extract_earthquake_data, hcsv]
  have hl : load_raw_data env
      ⟨fsWrite env.fs0 (rawFilePath env.ts_nodash) env.csv, env.raw0, env.analytics0,
        xpush (xpush (xpush [] "extract_data" "batch_id" (.s env.ts_nodash))
          "extract_data" "raw_file" (.s (rawFilePath env.ts_nodash)))
          "extract_data" "record_count" (.n env.csv.length)⟩ =
      .ok ⟨fsWrite env.fs0 (rawFilePath env.ts_nodash) env.csv,
        env.raw0 ++ env.csv.map (stampRow env.ts_nodash env.now), env.analytics0,
        xpush (xpush (xpush (xpush [] "extract_data" "batch_id" (.s env.ts_nodash))
          "extract_data" "raw_file" (.s (rawFilePath env.ts_nodash)))
          "extract_data" "record_count" (.n env.csv.length))
          "load_raw_data" "loaded_records" (.n (env.csv.map (stampRow env.ts_nodash env.now)).length)⟩ := by
    simp only [load_raw_data,
      show xpull (xpush (xpush (xpush [] "extract_data" "batch_id" (.s env.ts_nodash))
        "extract_data" "raw_file" (.s (rawFilePath env.ts_nodash)))
        "extract_data" "record_count" (.n env.csv.length)) "batch_id" "extract_data" =
        some (XVal.s env.ts_nodash) from rfl,
      show xpull (xpush (xpush (xpush [] "extract_data" "batch_id" (.s env.ts_nodash))
        "extract_data" "raw_file" (.s (rawFilePath env.ts_nodash)))
        "extract_data" "record_count" (.n env.csv.length)) "raw_file" "extract_data" =
        some (XVal.s (rawFilePath env.ts_nodash)) from rfl,
      fsRead_fsWrite]
  simp only [runPipeline, he, hl] at hrun
  cases hc : ((env.raw0 ++ env.csv.map (stampRow env.ts_nodash env.now)).filter
      (fun r => r.batch_id == env.ts_nodash)).length == env.csv.length with
  | false =>
    have hv : validate_raw_data env
        ⟨fsWrite env.fs0 (rawFilePath env.ts_nodash) env.csv,
          env.raw0 ++ env.csv.map (stampRow env.ts_nodash env.now), env.analytics0,
          xpush (xpush (xpush (xpush [] "extract_data" "batch_id" (.s env.ts_nodash))
            "extract_data" "raw_file" (.s (rawFilePath env.ts_nodash)))
            "extract_data" "record_count" (.n env.csv.length))
            "load_raw_data" "loaded_records" (.n (env.csv.map (stampRow env.ts_nodash env.now)).length)⟩ =
        .error ("Validation failed: Expected " ++ toString env.csv.length ++ ", got " ++
          toString ((env.raw0 ++ env.csv.map (stampRow env.ts_nodash env.now)).filter
            (fun r => r.batch_id == env.ts_nodash)).length) := by
      simp only [validate_raw_data,
        show xpull (xpush (xpush (xpush (xpush [] "extract_data" "batch_id" (.s env.ts_nodash))
          "extract_data" "raw_file" (.s (rawFilePath env.ts_nodash)))
          "extract_data" "record_count" (.n env.csv.length))
          "load_raw_data" "loaded_records" (.n (env.csv.map (stampRow env.ts_nodash env.now)).length))
          "batch_id" "extract_data" = some (XVal.s env.ts_nodash) from rfl,
        show xpull (xpush (xpush (xpush (xpush [] "extract_data" "batch_id" (.s env.ts_nodash))
          "extract_data" "raw_file" (.s (rawFilePath env.ts_nodash)))
          "extract_data" "record_count" (.n env.csv.length))
          "load_raw_data" "loaded_records" (.n (env.csv.map (stampRow env.ts_nodash env.now)).length))
          "record_count" "extract_data" = some (XVal.n env.csv.length) from rfl,
        hc]
      simp
    rw [hv] at hrun
    simp at hrun
  | true =>
    have hv : validate_raw_data env
        ⟨fsWrite env.fs0 (rawFilePath env.ts_nodash) env.csv,
          env.raw0 ++ env.csv.map (stampRow env.ts_nodash env.now), env.analytics0,
          xpush (xpush (xpush (xpush [] "extract_data" "batch_id" (.s env.ts_nodash))
            "extract_data" "raw_file" (.s (rawFilePath env.ts_nodash)))
            "extract_data" "record_count" (.n env.csv.length))
            "load_raw_data" "loaded_records" (.n (env.csv.map (stampRow env.ts_nodash env.now)).length)⟩ =
        .ok ⟨fsWrite env.fs0 (rawFilePath env.ts_nodash) env.csv,
          env.raw0 ++ env.csv.map (stampRow env.ts_nodash env.now), env.analytics0,
          xpush (xpush (xpush (xpush [] "extract_data" "batch_id" (.s env.ts_nodash))
            "extract_data" "raw_file" (.s (rawFilePath env.ts_nodash)))
            "extract_data" "record_count" (.n env.csv.length))
            "load_raw_data" "loaded_records" (.n (env.csv.map (stampRow env.ts_nodash env.now)).length)⟩ := by
      simp only [validate_raw_data,
        show xpull (xpush (xpush (xpush (xpush [] "extract_data" "batch_id" (.s env.ts_nodash))
          "extract_data" "raw_file" (.s (rawFilePath env.ts_nodash)))
          "extract_data" "record_count" (.n env.csv.length))
          "load_raw_data" "loaded_records" (.n (env.csv.map (stampRow env.ts_nodash env.now)).length))
          "batch_id" "extract_data" = some (XVal.s env.ts_nodash) from rfl,
        show xpull (xpush (xpush (xpush (xpush [] "extract_data" "batch_id" (.s env.ts_nodash))
          "extract_data" "raw_file" (.s (rawFilePath env.ts_nodash)))
          "extract_data" "record_count" (.n env.csv.length))
          "load_raw_data" "loaded_records" (.n (env.csv.map (stampRow env.ts_nodash env.now)).length))
          "record_count" "extract_data" = some (XVal.n env.csv.length) from rfl,
        hc]
      simp
    rw [hv] at hrun
    simp only [] at hrun
    cases ht : transformBatch (env.raw0 ++ env.csv.map (stampRow env.ts_nodash env.now))
        env.ts_nodash with
    | error e =>
      have htr : transform_to_analytics env
          ⟨fsWrite env.fs0 (rawFilePath env.ts_nodash) env.csv,
            env.raw0 ++ env.csv.map (stampRow env.ts_nodash env.now), env.analytics0,
            xpush (xpush (xpush (xpush [] "extract_data" "batch_id" (.s env.ts_nodash))
              "extract_data" "raw_file" (.s (rawFilePath env.ts_nodash)))
              "extract_data" "record_count" (.n env.csv.length))
              "load_raw_data" "loaded_records" (.n (env.csv.map (stampRow env.ts_nodash env.now)).length)⟩ =
          .error e := by
        simp only [transform_to_analytics,
          show xpull (xpush (xpush (xpush (xpush [] "extract_data" "batch_id" (.s env.ts_nodash))
            "extract_data" "raw_file" (.s (rawFilePath env.ts_nodash)))
            "extract_data" "record_count" (.n env.csv.length))
            "load_raw_data" "loaded_records" (.n (env.csv.map (stampRow env.ts_nodash env.now)).length))
            "batch_id" "extract_data" = some (XVal.s env.ts_nodash) from rfl,
          runTransform, ht]
      rw [htr] at hrun
      simp at hrun
    | ok rows =>
      have htr : transform_to_analytics env
          ⟨fsWrite env.fs0 (rawFilePath env.ts_nodash) env.csv,
            env.raw0 ++ env.csv.map (stampRow env.ts_nodash env.now), env.analytics0,
            xpush (xpush (xpush (xpush [] "extract_data" "batch_id" (.s env.ts_nodash))
              "extract_data" "raw_file" (.s (rawFilePath env.ts_nodash)))
              "extract_data" "record_count" (.n env.csv.length))
              "load_raw_data" "loaded_records" (.n (env.csv.map (stampRow env.ts_nodash env.now)).length)⟩ =
          .ok ⟨fsWrite env.fs0 (rawFilePath env.ts_nodash) env.csv,
            env.raw0 ++ env.csv.map (stampRow env.ts_nodash env.now),
            env.analytics0 ++ rows,
            xpush (xpush (xpush (xpush [] "extract_data" "batch_id" (.s env.ts_nodash))
              "extract_data" "raw_file" (.s (rawFilePath env.ts_nodash)))
              "extract_data" "record_count" (.n env.csv.length))
              "load_raw_data" "loaded_records" (.n (env.csv.map (stampRow env.ts_nodash env.now)).length)⟩ := by
        simp only [transform_to_analytics,
          show xpull (xpush (xpush (xpush (xpush [] "extract_data" "batch_id" (.s env.ts_nodash))
            "extract_data" "raw_file" (.s (rawFilePath env.ts_nodash)))
            "extract_data" "record_count" (.n env.csv.length))
            "load_raw_data" "loaded_records" (.n (env.csv.map (stampRow env.ts_nodash env.now)).length))
            "batch_id" "extract_data" = some (XVal.s env.ts_nodash) from rfl,
          runTransform, ht]
      rw [htr] at hrun
      simp only [Except.ok.injEq] at hrun
      subst hrun
      refine ⟨rfl, rfl, eq_of_beq hc, rows, ht, rfl, transformBatch_mem_batch ht⟩

theorem batch_id_shared_witness :
    xpull c10st.xcom "batch_id" "extract_data" = some (.s c10env.ts_nodash) ∧
    c10st.rawStore = c10env.raw0 ++ c10env.csv.map (stampRow c10env.ts_nodash c10env.now) ∧
    (c10st.rawStore.filter (fun r => r.batch_id == c10env.ts_nodash)).length = c10env.csv.length ∧
    ∃ rows, transformBatch c10st.rawStore c10env.ts_nodash = .ok rows ∧
      c10st.analytics = c10env.analytics0 ++ rows ∧
      ∀ a ∈ rows, a.batch_id = c10env.ts_nodash :=
  batch_id_shared_across_stages c10env c10st (by decide) (by decide)

set_option maxRecDepth 4000 in
lemma allModeledOK : ∀ d ∈ modeledChars, ∀ e ∈ nfd d,
    (combiningMark e || charStepOK e) = true := by decide

lemma pyStrip_subset (xs : List Char) : ∀ c ∈ pyStrip xs, c ∈ xs := by
  intro c hc
  unfold pyStrip at hc
  rw [List.mem_reverse] at hc
  have h1 := (List.dropWhile_sublist (l := (xs.dropWhile pyIsSpace).reverse)
    (p := pyIsSpace)).subset hc
  rw [List.mem_reverse] at h1
  exact (List.dropWhile_sublist (l := xs) (p := pyIsSpace)).subset h1

lemma modeledChar_mem {c : Char} (h : modeledChar c = true) : c ∈ modeledChars := by
  unfold modeledChar at h
  simpa using h

lemma charsetOK_spec (x : Char) (h : charsetOK x = true) :
    ('a' ≤ x ∧ x ≤ 'z') ∨ ('0' ≤ x ∧ x ≤ '9') ∨ x = '_' := by
  simp only [charsetOK, Bool.or_eq_true, Bool.and_eq_true, decide_eq_true_eq,
    beq_iff_eq] at h
  tauto

lemma normalize_chars_ok (l : List Char) (hl : ∀ c ∈ l, modeledChar c = true) :
    ∀ c ∈ (((pyStrip ((l.flatMap nfd).filter (fun c => !combiningMark c))).map Char.toLower).map
      (fun c => if c == ' ' then '_' else c)).filter (fun c => c.isAlphanum || c == '_'),
      ('a' ≤ c ∧ c ≤ 'z') ∨ ('0' ≤ c ∧ c ≤ '9') ∨ c = '_' := by
  intro c hc
  rw [List.mem_filter] at hc
  obtain ⟨hmem, hkeep⟩ := hc
  rw [List.mem_map] at hmem
  obtain ⟨c1, hc1, rfl⟩ := hmem
  rw [List.mem_map] at hc1
  obtain ⟨c2, hc2, rfl⟩ := hc1
  have hc2' := pyStrip_subset _ _ hc2
  rw [List.mem_filter] at hc2'
  obtain ⟨hbind, hnm⟩ := hc2'
  rw [List.mem_flatMap] at hbind
  obtain ⟨d, hd, he⟩ := hbind
  have hOK := allModeledOK d (modeledChar_mem (hl d hd)) c2 he
  rw [Bool.or_eq_true] at hOK
  rcases hOK with hmk | hstep
  · rw [hmk] at hnm
    simp at hnm
  · simp only [charStepOK, Bool.or_eq_true] at hstep
    rcases hstep with hnk | hgood
    · have hf : ((if Char.toLower c2 == ' ' then '_' else Char.toLower c2).isAlphanum ||
          (if Char.toLower c2 == ' ' then '_' else Char.toLower c2) == '_') = false := by
        revert hnk
        cases ((if Char.toLower c2 == ' ' then '_' else Char.toLower c2).isAlphanum ||
          (if Char.toLower c2 == ' ' then '_' else Char.toLower c2) == '_') <;> simp
      rw [hf] at hkeep
      exact absurd hkeep (by simp)
    · exact charsetOK_spec _ hgood

/-- C9 (amended): the normalizer strips diacritics (NFD + combining-mark
removal), lower-cases, trims, replaces interior SPACE characters (only
U+0020, not all whitespace) with underscores, and removes every other
character that is not alphanumeric or underscore; over the modelled
repertoire the output is always lowercase alphanumerics/underscores, and
the header example normalizes as specified. -/
theorem normalize_column_name_spec :
    (∀ s : String, (∀ c ∈ s.data, modeledChar c = true) →
      ∀ c ∈ (normalize_column_name s).data,
        ('a' ≤ c ∧ c ≤ 'z') ∨ ('0' ≤ c ∧ c ≤ '9') ∨ c = '_') ∧
    normalize_column_name "Referencia de Localización" = "referencia_de_localizacion" ∧
    normalize_column_name "a b" = "a_b" ∧
    normalize_column_name "a\tb" = "ab" := by
  refine ⟨?_, by decide, by decide, by decide⟩
  intro s hs
  exact normalize_chars_ok s.data hs

theorem normalize_column_name_witness :
    ∀ c ∈ (normalize_column_name "Hora UTC").data,
      ('a' ≤ c ∧ c ≤ 'z') ∨ ('0' ≤ c ∧ c ≤ '9') ∨ c = '_' :=
  normalize_column_name_spec.1 "Hora UTC" (by decide)

theorem normalize_whitespace_counterexample :
    specNormalizeColumnName "a\tb" = "a_b" ∧
    normalize_column_name "a\tb" = "ab" ∧
    normalize_column_name "a\tb" ≠ specNormalizeColumnName "a\tb" :=
  ⟨by decide, by decide, by decide⟩
